import Mathlib

set_option autoImplicit false

/-!
Verification of the multilspy TypeScript language-server plugin
(`src/multilspy/language_servers/typescript_language_server/typescript_language_server.py`)
against its natural-language specification.

The Python code manipulates JSON documents (Python dicts loaded with `json.load`),
registers handlers, performs the LSP handshake and tears the session down.  We embed
the relevant functions as pure Lean functions: JSON objects become association lists
in insertion order (Python dicts preserve insertion order and have unique keys),
fallible code returns `Except`, and the control flow of the async context manager
`start_server` becomes a function producing the trace of observable events.
-/

namespace Multilspy

/-- A JSON value, as manipulated by the Python code via `json.load`.  Objects are
association lists of key/value pairs in insertion order. -/
inductive Json where
  | str (s : String)
  | num (n : Int)
  | bool (b : Bool)
  | null
  | arr (elems : List Json)
  | obj (entries : List (String × Json))

/-- Python dict lookup `d[k]` on an association list: the first matching key. -/
def lookupKey : List (String × Json) → String → Option Json
  | [], _ => none
  | (k, v) :: rest, key => if k = key then some v else lookupKey rest key

/-- Python dict assignment `d[k] = v`: replace the existing entry in place, else append. -/
def setKey : List (String × Json) → String → Json → List (String × Json)
  | [], key, v => [(key, v)]
  | (k, w) :: rest, key, v =>
      if k = key then (key, v) :: rest else (k, w) :: setKey rest key v

/-- Python `del d[k]`: remove the entry with the given key (a dict holds at most one). -/
def eraseKey : List (String × Json) → String → List (String × Json)
  | [], _ => []
  | (k, w) :: rest, key => if k = key then rest else (k, w) :: eraseKey rest key

theorem lookupKey_eq_none_of_not_mem (d : List (String × Json)) (k : String)
    (h : k ∉ d.map Prod.fst) : lookupKey d k = none := by
  induction d with
  | nil => rfl
  | cons hd tl ih =>
      obtain ⟨k0, v0⟩ := hd
      simp only [List.map_cons, List.mem_cons] at h
      push_neg at h
      simp [lookupKey, Ne.symm h.1, ih h.2]

theorem lookupKey_setKey_self (d : List (String × Json)) (k : String) (v : Json) :
    lookupKey (setKey d k v) k = some v := by
  induction d with
  | nil => simp [setKey, lookupKey]
  | cons hd tl ih =>
      obtain ⟨k0, v0⟩ := hd
      by_cases h : k0 = k <;> simp [setKey, lookupKey, h, ih]

theorem lookupKey_setKey_ne (d : List (String × Json)) (k k2 : String) (v : Json)
    (h : k2 ≠ k) : lookupKey (setKey d k v) k2 = lookupKey d k2 := by
  induction d with
  | nil => simp [setKey, lookupKey, Ne.symm h]
  | cons hd tl ih =>
      obtain ⟨k0, v0⟩ := hd
      by_cases hk : k0 = k
      · subst hk
        simp [setKey, lookupKey, Ne.symm h]
      · by_cases hk2 : k0 = k2
        · subst hk2
          simp [setKey, lookupKey, hk, ih]
        · simp [setKey, lookupKey, hk, hk2, ih]

theorem lookupKey_eraseKey_ne (d : List (String × Json)) (k k2 : String)
    (h : k2 ≠ k) : lookupKey (eraseKey d k) k2 = lookupKey d k2 := by
  induction d with
  | nil => rfl
  | cons hd tl ih =>
      obtain ⟨k0, v0⟩ := hd
      by_cases hk : k0 = k
      · subst hk
        simp [eraseKey, lookupKey, Ne.symm h]
      · by_cases hk2 : k0 = k2
        · subst hk2
          simp [eraseKey, lookupKey, hk, ih]
        · simp [eraseKey, lookupKey, hk, hk2, ih]

theorem lookupKey_eraseKey_self (d : List (String × Json)) (k : String)
    (h : (d.map Prod.fst).Nodup) : lookupKey (eraseKey d k) k = none := by
  induction d with
  | nil => rfl
  | cons hd tl ih =>
      obtain ⟨k0, v0⟩ := hd
      simp only [List.map_cons, List.nodup_cons] at h
      by_cases hk : k0 = k
      · subst hk
        simp only [eraseKey, if_pos rfl]
        exact lookupKey_eq_none_of_not_mem tl k0 h.1
      · simp [eraseKey, lookupKey, hk, ih h.2]

/-- Python exceptions raised by the modelled code paths.  `callerException` stands for
an exception (or cancellation) propagating out of the caller's `async with` block. -/
inductive PyErr where
  | keyError
  | indexError
  | typeError
  | assertionError
  | callerException
  deriving DecidableEq

/-- Models `del d["_description"]` in `_get_initialize_params`
(typescript_language_server.py line 179): `KeyError` when the key is absent. -/
def delDescription (d : List (String × Json)) : Except PyErr (List (String × Json)) :=
  match lookupKey d "_description" with
  | none => .error .keyError
  | some _ => .ok (eraseKey d "_description")

/-- Models lines 182-183: `assert d["rootPath"] == "$rootPath"` then
`d["rootPath"] = repository_absolute_path`.  A missing key is a `KeyError`; a value
other than the placeholder string fails the assertion. -/
def substRootPath (d : List (String × Json)) (path : String) :
    Except PyErr (List (String × Json)) :=
  match lookupKey d "rootPath" with
  | none => .error .keyError
  | some (.str s) =>
      if s = "$rootPath" then .ok (setKey d "rootPath" (.str path))
      else .error .assertionError
  | some _ => .error .assertionError

/-- Models lines 185-186: `assert d["rootUri"] == "$rootUri"` then
`d["rootUri"] = pathlib.Path(repository_absolute_path).as_uri()`. -/
def substRootUri (d : List (String × Json)) (uri : String) :
    Except PyErr (List (String × Json)) :=
  match lookupKey d "rootUri" with
  | none => .error .keyError
  | some (.str s) =>
      if s = "$rootUri" then .ok (setKey d "rootUri" (.str uri))
      else .error .assertionError
  | some _ => .error .assertionError

/-- Models lines 188-189: `assert d["workspaceFolders"][0]["uri"] == "$uri"` then the
in-place assignment of the file URI.  Missing key is `KeyError`, an empty array is
`IndexError`, indexing a non-array or a non-object element is `TypeError`. -/
def substFolderUri (d : List (String × Json)) (uri : String) :
    Except PyErr (List (String × Json)) :=
  match lookupKey d "workspaceFolders" with
  | none => .error .keyError
  | some (.arr []) => .error .indexError
  | some (.arr (.obj w :: ws)) =>
      match lookupKey w "uri" with
      | none => .error .keyError
      | some (.str s) =>
          if s = "$uri" then
            .ok (setKey d "workspaceFolders" (.arr (.obj (setKey w "uri" (.str uri)) :: ws)))
          else .error .assertionError
      | some _ => .error .assertionError
  | some (.arr (_ :: _)) => .error .typeError
  | some _ => .error .typeError

/-- Models lines 191-192: `assert d["workspaceFolders"][0]["name"] == "$name"` then the
assignment of `os.path.basename(repository_absolute_path)`. -/
def substFolderName (d : List (String × Json)) (name : String) :
    Except PyErr (List (String × Json)) :=
  match lookupKey d "workspaceFolders" with
  | none => .error .keyError
  | some (.arr []) => .error .indexError
  | some (.arr (.obj w :: ws)) =>
      match lookupKey w "name" with
      | none => .error .keyError
      | some (.str s) =>
          if s = "$name" then
            .ok (setKey d "workspaceFolders" (.arr (.obj (setKey w "name" (.str name)) :: ws)))
          else .error .assertionError
      | some _ => .error .assertionError
  | some (.arr (_ :: _)) => .error .typeError
  | some _ => .error .typeError

/-- Shallow embedding of `TypeScriptLanguageServer._get_initialize_params`
(typescript_language_server.py lines 172-194).  `template` is the JSON document loaded
from the static per-plugin file; the stdlib calls are parameters of the embedding:
`pid` models `os.getpid()`, `rootUriOf` models
`pathlib.Path(repository_absolute_path).as_uri()` and `baseNameOf` models
`os.path.basename(repository_absolute_path)`.  The statements run in source order:
delete `_description`, set `processId`, then assert-and-substitute `rootPath`,
`rootUri`, `workspaceFolders[0].uri` and `workspaceFolders[0].name`. -/
def get_init_params (template : Json) (pid : Int) (path rootUriOf baseNameOf : String) :
    Except PyErr Json :=
  match template with
  | .obj d =>
      match delDescription d with
      | .error e => .error e
      | .ok d1 =>
          match substRootPath (setKey d1 "processId" (.num pid)) path with
          | .error e => .error e
          | .ok d3 =>
              match substRootUri d3 rootUriOf with
              | .error e => .error e
              | .ok d4 =>
                  match substFolderUri d4 rootUriOf with
                  | .error e => .error e
                  | .ok d5 =>
                      match substFolderName d5 baseNameOf with
                      | .error e => .error e
                      | .ok d6 => .ok (.obj d6)
  | _ => .error .typeError

theorem setKey_setKey_same (d : List (String × Json)) (k : String) (v w : Json) :
    setKey (setKey d k v) k w = setKey d k w := by
  induction d with
  | nil => simp [setKey]
  | cons hd tl ih =>
      obtain ⟨k0, v0⟩ := hd
      by_cases h : k0 = k <;> simp [setKey, h, ih]

/-- Running `_get_initialize_params` on a well-formed template (all four placeholders
present, `_description` present) succeeds and computes the substituted document. -/
theorem get_init_params_run (d w : List (String × Json)) (ws : List Json)
    (desc : Json) (pid : Int) (path uriStr nameStr : String)
    (hdesc : lookupKey d "_description" = some desc)
    (hrp : lookupKey d "rootPath" = some (.str "$rootPath"))
    (hru : lookupKey d "rootUri" = some (.str "$rootUri"))
    (hwf : lookupKey d "workspaceFolders" = some (.arr (.obj w :: ws)))
    (hu : lookupKey w "uri" = some (.str "$uri"))
    (hn : lookupKey w "name" = some (.str "$name")) :
    get_init_params (.obj d) pid path uriStr nameStr =
      .ok (.obj (setKey
        (setKey (setKey (setKey (eraseKey d "_description") "processId" (.num pid))
            "rootPath" (.str path)) "rootUri" (.str uriStr))
        "workspaceFolders"
        (.arr (.obj (setKey (setKey w "uri" (.str uriStr)) "name" (.str nameStr)) :: ws)))) := by
  have h1 : delDescription d = .ok (eraseKey d "_description") := by
    simp [delDescription, hdesc]
  have e2 : lookupKey (setKey (eraseKey d "_description") "processId" (Json.num pid))
      "rootPath" = some (Json.str "$rootPath") := by
    rw [lookupKey_setKey_ne _ _ _ _ (by decide), lookupKey_eraseKey_ne _ _ _ (by decide), hrp]
  have h3 : substRootPath (setKey (eraseKey d "_description") "processId" (Json.num pid))
      path = .ok (setKey (setKey (eraseKey d "_description") "processId" (Json.num pid))
        "rootPath" (Json.str path)) := by
    simp [substRootPath, e2]
  have e3 : lookupKey (setKey (setKey (eraseKey d "_description") "processId" (Json.num pid))
      "rootPath" (Json.str path)) "rootUri" = some (Json.str "$rootUri") := by
    rw [lookupKey_setKey_ne _ _ _ _ (by decide), lookupKey_setKey_ne _ _ _ _ (by decide),
      lookupKey_eraseKey_ne _ _ _ (by decide), hru]
  have h4 : substRootUri (setKey (setKey (eraseKey d "_description") "processId"
      (Json.num pid)) "rootPath" (Json.str path)) uriStr =
      .ok (setKey (setKey (setKey (eraseKey d "_description") "processId" (Json.num pid))
        "rootPath" (Json.str path)) "rootUri" (Json.str uriStr)) := by
    simp [substRootUri, e3]
  have e4 : lookupKey (setKey (setKey (setKey (eraseKey d "_description") "processId"
      (Json.num pid)) "rootPath" (Json.str path)) "rootUri" (Json.str uriStr))
      "workspaceFolders" = some (Json.arr (Json.obj w :: ws)) := by
    rw [lookupKey_setKey_ne _ _ _ _ (by decide), lookupKey_setKey_ne _ _ _ _ (by decide),
      lookupKey_setKey_ne _ _ _ _ (by decide), lookupKey_eraseKey_ne _ _ _ (by decide), hwf]
  have h5 : substFolderUri (setKey (setKey (setKey (eraseKey d "_description") "processId"
      (Json.num pid)) "rootPath" (Json.str path)) "rootUri" (Json.str uriStr)) uriStr =
      .ok (setKey (setKey (setKey (setKey (eraseKey d "_description") "processId"
        (Json.num pid)) "rootPath" (Json.str path)) "rootUri" (Json.str uriStr))
        "workspaceFolders" (Json.arr (Json.obj (setKey w "uri" (Json.str uriStr)) :: ws))) := by
    simp [substFolderUri, e4, hu]
  have e5 : lookupKey (setKey (setKey (setKey (setKey (eraseKey d "_description")
      "processId" (Json.num pid)) "rootPath" (Json.str path)) "rootUri" (Json.str uriStr))
      "workspaceFolders" (Json.arr (Json.obj (setKey w "uri" (Json.str uriStr)) :: ws)))
      "workspaceFolders" =
      some (Json.arr (Json.obj (setKey w "uri" (Json.str uriStr)) :: ws)) :=
    lookupKey_setKey_self _ _ _
  have e5n : lookupKey (setKey w "uri" (Json.str uriStr)) "name" =
      some (Json.str "$name") := by
    rw [lookupKey_setKey_ne _ _ _ _ (by decide), hn]
  have h6 : substFolderName (setKey (setKey (setKey (setKey (eraseKey d "_description")
      "processId" (Json.num pid)) "rootPath" (Json.str path)) "rootUri" (Json.str uriStr))
      "workspaceFolders" (Json.arr (Json.obj (setKey w "uri" (Json.str uriStr)) :: ws)))
      nameStr =
      .ok (setKey (setKey (setKey (setKey (setKey (eraseKey d "_description") "processId"
        (Json.num pid)) "rootPath" (Json.str path)) "rootUri" (Json.str uriStr))
        "workspaceFolders" (Json.arr (Json.obj (setKey w "uri" (Json.str uriStr)) :: ws)))
        "workspaceFolders"
        (Json.arr (Json.obj (setKey (setKey w "uri" (Json.str uriStr)) "name"
          (Json.str nameStr)) :: ws))) := by
    simp [substFolderName, e5, e5n]
  simp only [get_init_params, h1, h3, h4, h5, h6, setKey_setKey_same]

/-- `Except.ok`-ness as a Boolean, for concrete evaluations. -/
def exceptOk {ε α : Type} (x : Except ε α) : Bool :=
  match x with
  | .ok _ => true
  | .error _ => false

/-- C2: for every repository absolute path, `_get_initialize_params` returns the
plugin's static template with exactly four substitutions — `processId` becomes the
embedding process id, `rootPath` the repository path, `rootUri` its file URI, and
`workspaceFolders[0]` gets that URI and the path's basename as name — while
`_description` is removed and every other field of the template (and of the first
workspace folder, and the remaining folders) is unchanged. -/
theorem claim_c2_init_params_substitutions
    (d w : List (String × Json)) (ws : List Json) (desc : Json)
    (pid : Int) (path uriStr nameStr : String)
    (hnodup : (d.map Prod.fst).Nodup)
    (hdesc : lookupKey d "_description" = some desc)
    (hrp : lookupKey d "rootPath" = some (.str "$rootPath"))
    (hru : lookupKey d "rootUri" = some (.str "$rootUri"))
    (hwf : lookupKey d "workspaceFolders" = some (.arr (.obj w :: ws)))
    (hu : lookupKey w "uri" = some (.str "$uri"))
    (hn : lookupKey w "name" = some (.str "$name")) :
    ∃ r w2, get_init_params (.obj d) pid path uriStr nameStr = .ok (.obj r) ∧
      lookupKey r "processId" = some (.num pid) ∧
      lookupKey r "rootPath" = some (.str path) ∧
      lookupKey r "rootUri" = some (.str uriStr) ∧
      lookupKey r "workspaceFolders" = some (.arr (.obj w2 :: ws)) ∧
      lookupKey w2 "uri" = some (.str uriStr) ∧
      lookupKey w2 "name" = some (.str nameStr) ∧
      (∀ k, k ≠ "uri" → k ≠ "name" → lookupKey w2 k = lookupKey w k) ∧
      lookupKey r "_description" = none ∧
      (∀ k, k ∉ (["_description", "processId", "rootPath", "rootUri",
          "workspaceFolders"] : List String) → lookupKey r k = lookupKey d k) := by
  refine ⟨setKey (setKey (setKey (setKey (eraseKey d "_description") "processId"
      (.num pid)) "rootPath" (.str path)) "rootUri" (.str uriStr)) "workspaceFolders"
      (.arr (.obj (setKey (setKey w "uri" (.str uriStr)) "name" (.str nameStr)) :: ws)),
    setKey (setKey w "uri" (.str uriStr)) "name" (.str nameStr),
    get_init_params_run d w ws desc pid path uriStr nameStr hdesc hrp hru hwf hu hn,
    ?_, ?_, ?_, ?_, ?_, ?_, ?_, ?_, ?_⟩
  · rw [lookupKey_setKey_ne _ _ _ _ (by decide), lookupKey_setKey_ne _ _ _ _ (by decide),
      lookupKey_setKey_ne _ _ _ _ (by decide), lookupKey_setKey_self]
  · rw [lookupKey_setKey_ne _ _ _ _ (by decide), lookupKey_setKey_ne _ _ _ _ (by decide),
      lookupKey_setKey_self]
  · rw [lookupKey_setKey_ne _ _ _ _ (by decide), lookupKey_setKey_self]
  · exact lookupKey_setKey_self _ _ _
  · rw [lookupKey_setKey_ne _ _ _ _ (by decide), lookupKey_setKey_self]
  · exact lookupKey_setKey_self _ _ _
  · intro k hk1 hk2
    rw [lookupKey_setKey_ne _ _ _ _ hk2, lookupKey_setKey_ne _ _ _ _ hk1]
  · rw [lookupKey_setKey_ne _ _ _ _ (by decide), lookupKey_setKey_ne _ _ _ _ (by decide),
      lookupKey_setKey_ne _ _ _ _ (by decide), lookupKey_setKey_ne _ _ _ _ (by decide),
      lookupKey_eraseKey_self _ _ hnodup]
  · intro k hk
    simp only [List.mem_cons, List.not_mem_nil, or_false, not_or] at hk
    obtain ⟨hk1, hk2, hk3, hk4, hk5⟩ := hk
    rw [lookupKey_setKey_ne _ _ _ _ hk5, lookupKey_setKey_ne _ _ _ _ hk4,
      lookupKey_setKey_ne _ _ _ _ hk3, lookupKey_setKey_ne _ _ _ _ hk2,
      lookupKey_eraseKey_ne _ _ _ hk1]

/-- A concrete well-formed template, used to exercise the theorems on an input. -/
def tmplFolder0 : List (String × Json) :=
  [("uri", .str "$uri"), ("name", .str "$name")]

/-- A concrete well-formed template document (association list of the top-level keys). -/
def tmpl0 : List (String × Json) :=
  [("_description", .str "template for ts language server"),
   ("processId", .str "os.getpid()"),
   ("rootPath", .str "$rootPath"),
   ("rootUri", .str "$rootUri"),
   ("capabilities", .obj []),
   ("trace", .str "verbose"),
   ("workspaceFolders", .arr [.obj tmplFolder0])]

theorem claim_c2_witness :
    exceptOk (get_init_params (.obj tmpl0) 41 "/repos/proj" "file:///repos/proj" "proj")
      = true := by
  obtain ⟨r, w2, hrun, -⟩ :=
    claim_c2_init_params_substitutions tmpl0 tmplFolder0 []
      (.str "template for ts language server") 41 "/repos/proj" "file:///repos/proj" "proj"
      (by decide) rfl rfl rfl rfl rfl rfl
  rw [hrun]
  rfl

theorem substRootPath_mismatch (d : List (String × Json)) (path : String) (v : Json)
    (h : lookupKey d "rootPath" = some v) (hv : v ≠ .str "$rootPath") :
    substRootPath d path = .error .assertionError := by
  cases v with
  | str s =>
      have hs : s ≠ "$rootPath" := by
        intro h2
        exact hv (by rw [h2])
      simp [substRootPath, h, hs]
  | num n => simp [substRootPath, h]
  | bool b => simp [substRootPath, h]
  | null => simp [substRootPath, h]
  | arr es => simp [substRootPath, h]
  | obj es => simp [substRootPath, h]

theorem substRootUri_mismatch (d : List (String × Json)) (uri : String) (v : Json)
    (h : lookupKey d "rootUri" = some v) (hv : v ≠ .str "$rootUri") :
    substRootUri d uri = .error .assertionError := by
  cases v with
  | str s =>
      have hs : s ≠ "$rootUri" := by
        intro h2
        exact hv (by rw [h2])
      simp [substRootUri, h, hs]
  | num n => simp [substRootUri, h]
  | bool b => simp [substRootUri, h]
  | null => simp [substRootUri, h]
  | arr es => simp [substRootUri, h]
  | obj es => simp [substRootUri, h]

theorem substFolderUri_mismatch (d w : List (String × Json)) (ws : List Json)
    (uri : String) (v : Json)
    (hwf : lookupKey d "workspaceFolders" = some (.arr (.obj w :: ws)))
    (hu : lookupKey w "uri" = some v) (hv : v ≠ .str "$uri") :
    substFolderUri d uri = .error .assertionError := by
  cases v with
  | str s =>
      have hs : s ≠ "$uri" := by
        intro h2
        exact hv (by rw [h2])
      simp [substFolderUri, hwf, hu, hs]
  | num n => simp [substFolderUri, hwf, hu]
  | bool b => simp [substFolderUri, hwf, hu]
  | null => simp [substFolderUri, hwf, hu]
  | arr es => simp [substFolderUri, hwf, hu]
  | obj es => simp [substFolderUri, hwf, hu]

theorem substFolderName_mismatch (d w : List (String × Json)) (ws : List Json)
    (name : String) (v : Json)
    (hwf : lookupKey d "workspaceFolders" = some (.arr (.obj w :: ws)))
    (hn : lookupKey w "name" = some v) (hv : v ≠ .str "$name") :
    substFolderName d name = .error .assertionError := by
  cases v with
  | str s =>
      have hs : s ≠ "$name" := by
        intro h2
        exact hv (by rw [h2])
      simp [substFolderName, hwf, hn, hs]
  | num n => simp [substFolderName, hwf, hn]
  | bool b => simp [substFolderName, hwf, hn]
  | null => simp [substFolderName, hwf, hn]
  | arr es => simp [substFolderName, hwf, hn]
  | obj es => simp [substFolderName, hwf, hn]

/-- C9: on a template whose structure is intact but in which any of the four literal
placeholders (`$rootPath`, `$rootUri`, `$uri`, `$name`) is not at its expected spot,
`_get_initialize_params` raises `AssertionError` instead of returning the params. -/
theorem claim_c9_placeholder_asserts
    (d w : List (String × Json)) (ws : List Json) (desc rp ru fu fn : Json)
    (pid : Int) (path uriStr nameStr : String)
    (hdesc : lookupKey d "_description" = some desc)
    (hrp : lookupKey d "rootPath" = some rp)
    (hru : lookupKey d "rootUri" = some ru)
    (hwf : lookupKey d "workspaceFolders" = some (.arr (.obj w :: ws)))
    (hu : lookupKey w "uri" = some fu)
    (hn : lookupKey w "name" = some fn)
    (hbad : rp ≠ .str "$rootPath" ∨ ru ≠ .str "$rootUri" ∨
      fu ≠ .str "$uri" ∨ fn ≠ .str "$name") :
    get_init_params (.obj d) pid path uriStr nameStr = .error .assertionError := by
  have h1 : delDescription d = .ok (eraseKey d "_description") := by
    simp [delDescription, hdesc]
  have e2 : lookupKey (setKey (eraseKey d "_description") "processId" (Json.num pid))
      "rootPath" = some rp := by
    rw [lookupKey_setKey_ne _ _ _ _ (by decide), lookupKey_eraseKey_ne _ _ _ (by decide), hrp]
  by_cases g1 : rp = Json.str "$rootPath"
  · rw [g1] at e2
    have h3 : substRootPath (setKey (eraseKey d "_description") "processId" (Json.num pid))
        path = .ok (setKey (setKey (eraseKey d "_description") "processId" (Json.num pid))
          "rootPath" (Json.str path)) := by
      simp [substRootPath, e2]
    have e3 : lookupKey (setKey (setKey (eraseKey d "_description") "processId"
        (Json.num pid)) "rootPath" (Json.str path)) "rootUri" = some ru := by
      rw [lookupKey_setKey_ne _ _ _ _ (by decide), lookupKey_setKey_ne _ _ _ _ (by decide),
        lookupKey_eraseKey_ne _ _ _ (by decide), hru]
    by_cases g2 : ru = Json.str "$rootUri"
    · rw [g2] at e3
      have h4 : substRootUri (setKey (setKey (eraseKey d "_description") "processId"
          (Json.num pid)) "rootPath" (Json.str path)) uriStr =
          .ok (setKey (setKey (setKey (eraseKey d "_description") "processId"
            (Json.num pid)) "rootPath" (Json.str path)) "rootUri" (Json.str uriStr)) := by
        simp [substRootUri, e3]
      have e4 : lookupKey (setKey (setKey (setKey (eraseKey d "_description") "processId"
          (Json.num pid)) "rootPath" (Json.str path)) "rootUri" (Json.str uriStr))
          "workspaceFolders" = some (Json.arr (Json.obj w :: ws)) := by
        rw [lookupKey_setKey_ne _ _ _ _ (by decide), lookupKey_setKey_ne _ _ _ _ (by decide),
          lookupKey_setKey_ne _ _ _ _ (by decide), lookupKey_eraseKey_ne _ _ _ (by decide),
          hwf]
      by_cases g3 : fu = Json.str "$uri"
      · rw [g3] at hu
        have h5 : substFolderUri (setKey (setKey (setKey (eraseKey d "_description")
            "processId" (Json.num pid)) "rootPath" (Json.str path)) "rootUri"
            (Json.str uriStr)) uriStr =
            .ok (setKey (setKey (setKey (setKey (eraseKey d "_description") "processId"
              (Json.num pid)) "rootPath" (Json.str path)) "rootUri" (Json.str uriStr))
              "workspaceFolders"
              (Json.arr (Json.obj (setKey w "uri" (Json.str uriStr)) :: ws))) := by
          simp [substFolderUri, e4, hu]
        by_cases g4 : fn = Json.str "$name"
        · exfalso
          rcases hbad with hb | hb | hb | hb
          exacts [hb g1, hb g2, hb g3, hb g4]
        · have e5 : lookupKey (setKey (setKey (setKey (setKey (eraseKey d "_description")
              "processId" (Json.num pid)) "rootPath" (Json.str path)) "rootUri"
              (Json.str uriStr)) "workspaceFolders"
              (Json.arr (Json.obj (setKey w "uri" (Json.str uriStr)) :: ws)))
              "workspaceFolders" =
              some (Json.arr (Json.obj (setKey w "uri" (Json.str uriStr)) :: ws)) :=
            lookupKey_setKey_self _ _ _
          have e5n : lookupKey (setKey w "uri" (Json.str uriStr)) "name" = some fn := by
            rw [lookupKey_setKey_ne _ _ _ _ (by decide), hn]
          have h6 := substFolderName_mismatch _ _ _ nameStr fn e5 e5n g4
          simp only [get_init_params, h1, h3, h4, h5, h6]
      · have h5 := substFolderUri_mismatch _ _ _ uriStr fu e4 hu g3
        simp only [get_init_params, h1, h3, h4, h5]
    · have h4 := substRootUri_mismatch _ uriStr ru e3 g2
      simp only [get_init_params, h1, h3, h4]
  · have h3 := substRootPath_mismatch _ path rp e2 g1
    simp only [get_init_params, h1, h3]

/-- A template identical to `tmpl0` except that the `rootPath` placeholder is wrong. -/
def tmplBad : List (String × Json) :=
  [("_description", .str "template for ts language server"),
   ("processId", .str "os.getpid()"),
   ("rootPath", .str "/already/substituted"),
   ("rootUri", .str "$rootUri"),
   ("capabilities", .obj []),
   ("trace", .str "verbose"),
   ("workspaceFolders", .arr [.obj tmplFolder0])]

theorem claim_c9_witness :
    get_init_params (.obj tmplBad) 41 "/repos/proj" "file:///repos/proj" "proj" =
      .error .assertionError := by
  exact claim_c9_placeholder_asserts tmplBad tmplFolder0 []
    (.str "template for ts language server") (.str "/already/substituted")
    (.str "$rootUri") (.str "$uri") (.str "$name") 41 "/repos/proj" "file:///repos/proj"
    "proj" rfl rfl rfl rfl rfl rfl
    (Or.inl (by
      intro h
      injection h with h2
      exact absurd h2 (by decide)))

/-- Exact structural comparison with the trigger-character list literal of line 251:
`.`, `"`, `'`, `/`, `@`, `<` in this order (Python list equality is order-sensitive).
The apostrophe character is written with a hex escape. -/
def matchesTriggerChars : List Json → Bool
  | [.str a, .str b, .str c, .str d, .str e, .str f] =>
      a == "." && b == "\"" && c == "\x27" && d == "/" && e == "@" && f == "<"
  | _ => false

/-- Python dict equality of `capabilities["completionProvider"]` with the literal
`{"triggerCharacters": [...], "resolveProvider": True}` (lines 250-253).  Dict
equality compares key sets and values, insertion order does not matter; as JSON
objects have unique keys this is: exactly two entries whose lookups both match. -/
def completionProviderMatches : Json → Bool
  | .obj kvs =>
      kvs.length == 2 &&
      (match lookupKey kvs "triggerCharacters" with
       | some (.arr cs) => matchesTriggerChars cs
       | _ => false) &&
      (match lookupKey kvs "resolveProvider" with
       | some (.bool true) => true
       | _ => false)
  | _ => false

/-- Shallow embedding of the TypeScript-specific capability assertions of
`start_server` (lines 248-253): `assert init_response["capabilities"]["textDocumentSync"] == 2`,
`assert "completionProvider" in init_response["capabilities"]`, and the dict-equality
assertion on `completionProvider`.  A missing `capabilities` or `textDocumentSync`
key is a `KeyError`; a failed assertion is an `AssertionError`. -/
def tsCapabilityCheck (resp : Json) : Except PyErr Unit :=
  match resp with
  | .obj r =>
      match lookupKey r "capabilities" with
      | none => .error .keyError
      | some (.obj c) =>
          match lookupKey c "textDocumentSync" with
          | none => .error .keyError
          | some (.num n) =>
              if n = 2 then
                match lookupKey c "completionProvider" with
                | none => .error .assertionError
                | some cp =>
                    if completionProviderMatches cp then .ok () else .error .assertionError
              else .error .assertionError
          | some _ => .error .assertionError
      | some _ => .error .typeError
  | _ => .error .typeError

/-- The expected capability subset as the claim states it (written from the
specification, to be compared with `tsCapabilityCheck` from the code): text-document
sync mode equal to 2 and a completion provider equal to the expected literal. -/
def claimedCapabilitySubset (resp : Json) : Bool :=
  match resp with
  | .obj r =>
      match lookupKey r "capabilities" with
      | some (.obj c) =>
          (match lookupKey c "textDocumentSync" with
           | some (.num n) => n == 2
           | _ => false) &&
          (match lookupKey c "completionProvider" with
           | some cp => completionProviderMatches cp
           | _ => false)
      | _ => false
  | _ => false

/-- The code's capability assertions succeed exactly on the responses the
specification describes. -/
theorem tsCapabilityCheck_ok_iff (resp : Json) :
    tsCapabilityCheck resp = .ok () ↔ claimedCapabilitySubset resp = true := by
  cases resp with
  | str s => simp [tsCapabilityCheck, claimedCapabilitySubset]
  | num n => simp [tsCapabilityCheck, claimedCapabilitySubset]
  | bool b => simp [tsCapabilityCheck, claimedCapabilitySubset]
  | null => simp [tsCapabilityCheck, claimedCapabilitySubset]
  | arr es => simp [tsCapabilityCheck, claimedCapabilitySubset]
  | obj r =>
      cases hc : lookupKey r "capabilities" with
      | none => simp [tsCapabilityCheck, claimedCapabilitySubset, hc]
      | some caps =>
          cases caps with
          | str s => simp [tsCapabilityCheck, claimedCapabilitySubset, hc]
          | num n => simp [tsCapabilityCheck, claimedCapabilitySubset, hc]
          | bool b => simp [tsCapabilityCheck, claimedCapabilitySubset, hc]
          | null => simp [tsCapabilityCheck, claimedCapabilitySubset, hc]
          | arr es => simp [tsCapabilityCheck, claimedCapabilitySubset, hc]
          | obj c =>
              cases ht : lookupKey c "textDocumentSync" with
              | none => simp [tsCapabilityCheck, claimedCapabilitySubset, hc, ht]
              | some tds =>
                  cases tds with
                  | str s => simp [tsCapabilityCheck, claimedCapabilitySubset, hc, ht]
                  | bool b => simp [tsCapabilityCheck, claimedCapabilitySubset, hc, ht]
                  | null => simp [tsCapabilityCheck, claimedCapabilitySubset, hc, ht]
                  | arr es => simp [tsCapabilityCheck, claimedCapabilitySubset, hc, ht]
                  | obj kv => simp [tsCapabilityCheck, claimedCapabilitySubset, hc, ht]
                  | num n =>
                      by_cases hn : n = 2
                      · subst hn
                        cases hp : lookupKey c "completionProvider" with
                        | none =>
                            simp [tsCapabilityCheck, claimedCapabilitySubset, hc, ht, hp]
                        | some cp =>
                            by_cases hcp : completionProviderMatches cp = true
                            · simp [tsCapabilityCheck, claimedCapabilitySubset,
                                hc, ht, hp, hcp]
                            · simp [tsCapabilityCheck, claimedCapabilitySubset,
                                hc, ht, hp, hcp]
                      · simp [tsCapabilityCheck, claimedCapabilitySubset, hc, ht, hn]

/-- Observable events of `start_server`, in order of occurrence. -/
inductive Event where
  | onRequest (method : String)
  | onNotification (method : String)
  | serverStart
  | sendInitReq
  | notifyInitDone
  | setSignal (name : String)
  | yieldToCaller
  | sendShutdownReq
  | serverStop
  deriving DecidableEq

/-- How the caller's `async with` scope exits: a normal fall-through, or an
exception/cancellation propagating out of the caller's block. -/
inductive ExitMode where
  | normal
  | abrupt
  deriving DecidableEq

/-- The five baseline handler registrations performed at the top of `start_server`
(lines 230-234), in source order. -/
def baselineRegs : List Event :=
  [.onRequest "client/registerCapability",
   .onNotification "window/logMessage",
   .onRequest "workspace/executeClientCommand",
   .onNotification "$/progress",
   .onNotification "textDocument/publishDiagnostics"]

/-- Shallow embedding of the control flow of `TypeScriptLanguageServer.start_server`
(lines 196-266), as the trace of observable events plus the final outcome (`none` for
normal completion, `some e` when exception `e` propagates to the caller).

The async context manager registers the five baseline handlers, starts the server
process, computes the init params from `template` (a failure there propagates),
sends the init request and receives `initResp`, asserts the expected capabilities,
sends the `initialized` notification, sets the `completions_available` and
`server_ready` signals, and yields.  The shutdown request and the process stop
(lines 264-265) follow the `yield` with no enclosing try/finally, so they run only
when the caller's scope exits normally: an exception or a cancellation is thrown into
the generator at the yield point and propagates past them. -/
def start_server (template : Json) (pid : Int) (path rootUriOf baseNameOf : String)
    (initResp : Json) (exit : ExitMode) : List Event × Option PyErr :=
  match get_init_params template pid path rootUriOf baseNameOf with
  | .error e => (baselineRegs ++ [Event.serverStart], some e)
  | .ok _ =>
      match tsCapabilityCheck initResp with
      | .error e => (baselineRegs ++ [Event.serverStart, Event.sendInitReq], some e)
      | .ok _ =>
          match exit with
          | .normal =>
              (baselineRegs ++ [Event.serverStart, Event.sendInitReq,
                Event.notifyInitDone, Event.setSignal "completions_available",
                Event.setSignal "server_ready", Event.yieldToCaller,
                Event.sendShutdownReq, Event.serverStop], none)
          | .abrupt =>
              (baselineRegs ++ [Event.serverStart, Event.sendInitReq,
                Event.notifyInitDone, Event.setSignal "completions_available",
                Event.setSignal "server_ready", Event.yieldToCaller],
                some .callerException)

/-- C1: whenever the initialize response lacks the plugin's expected capability subset
(text-document-sync mode 2 and the exact completion provider), session startup fails
with a fatal error — the outcome carries an exception, the session is never yielded to
the caller, and the ready signal is never set. -/
theorem claim_c1_capability_mismatch_fails (template : Json) (pid : Int)
    (path rootUriOf baseNameOf : String) (initResp : Json) (exit : ExitMode)
    (htmpl : ∃ p, get_init_params template pid path rootUriOf baseNameOf = .ok p)
    (hbad : claimedCapabilitySubset initResp = false) :
    (start_server template pid path rootUriOf baseNameOf initResp exit).2.isSome = true ∧
    Event.yieldToCaller ∉
      (start_server template pid path rootUriOf baseNameOf initResp exit).1 ∧
    Event.setSignal "server_ready" ∉
      (start_server template pid path rootUriOf baseNameOf initResp exit).1 := by
  obtain ⟨p, hp⟩ := htmpl
  unfold start_server
  rw [hp]
  cases h2 : tsCapabilityCheck initResp with
  | ok u =>
      exfalso
      cases u
      rw [tsCapabilityCheck_ok_iff] at h2
      rw [h2] at hbad
      exact Bool.noConfusion hbad
  | error e =>
      refine ⟨rfl, ?_, ?_⟩
      · show Event.yieldToCaller ∉ baselineRegs ++ [Event.serverStart, Event.sendInitReq]
        decide
      · show Event.setSignal "server_ready" ∉
          baselineRegs ++ [Event.serverStart, Event.sendInitReq]
        decide

/-- An initialize response carrying exactly the expected capability subset. -/
def respOk : Json :=
  .obj [("capabilities", .obj
    [("textDocumentSync", .num 2),
     ("completionProvider", .obj
       [("triggerCharacters", .arr [.str ".", .str "\"", .str "\x27", .str "/",
          .str "@", .str "<"]),
        ("resolveProvider", .bool true)])])]

/-- An initialize response whose completion trigger-character set differs from the
expected one (the handshake-rejection scenario of the specification). -/
def respBad : Json :=
  .obj [("capabilities", .obj
    [("textDocumentSync", .num 2),
     ("completionProvider", .obj
       [("triggerCharacters", .arr [.str "."]),
        ("resolveProvider", .bool true)])])]

theorem claim_c1_witness :
    (start_server (.obj tmpl0) 41 "/repos/proj" "file:///repos/proj" "proj" respBad
      .normal).2.isSome = true ∧
    Event.yieldToCaller ∉
      (start_server (.obj tmpl0) 41 "/repos/proj" "file:///repos/proj" "proj" respBad
        .normal).1 ∧
    Event.setSignal "server_ready" ∉
      (start_server (.obj tmpl0) 41 "/repos/proj" "file:///repos/proj" "proj" respBad
        .normal).1 :=
  claim_c1_capability_mismatch_fails (.obj tmpl0) 41 "/repos/proj" "file:///repos/proj"
    "proj" respBad .normal ⟨_, rfl⟩ rfl

/-- C4: on every run of `start_server`, the first six observable events are the five
baseline handler registrations — the capability-registration request, the log-message
notification, the execute-client-command request, the progress notification and the
diagnostics-publish notification — followed by the server-process start; in
particular no ready signal is set before them. -/
theorem claim_c4_baseline_handlers (template : Json) (pid : Int)
    (path rootUriOf baseNameOf : String) (initResp : Json) (exit : ExitMode) :
    (start_server template pid path rootUriOf baseNameOf initResp exit).1.take 6 =
      [Event.onRequest "client/registerCapability",
       Event.onNotification "window/logMessage",
       Event.onRequest "workspace/executeClientCommand",
       Event.onNotification "$/progress",
       Event.onNotification "textDocument/publishDiagnostics",
       Event.serverStart] ∧
    Event.setSignal "server_ready" ∉
      (start_server template pid path rootUriOf baseNameOf initResp exit).1.take 6 := by
  unfold start_server
  cases h1 : get_init_params template pid path rootUriOf baseNameOf with
  | error e =>
      refine ⟨rfl, ?_⟩
      show Event.setSignal "server_ready" ∉ (baselineRegs ++ [Event.serverStart]).take 6
      decide
  | ok p =>
      cases h2 : tsCapabilityCheck initResp with
      | error e =>
          refine ⟨rfl, ?_⟩
          show Event.setSignal "server_ready" ∉
            (baselineRegs ++ [Event.serverStart, Event.sendInitReq]).take 6
          decide
      | ok u =>
          cases exit with
          | normal =>
              refine ⟨rfl, ?_⟩
              show Event.setSignal "server_ready" ∉
                (baselineRegs ++ [Event.serverStart, Event.sendInitReq,
                  Event.notifyInitDone, Event.setSignal "completions_available",
                  Event.setSignal "server_ready", Event.yieldToCaller,
                  Event.sendShutdownReq, Event.serverStop]).take 6
              decide
          | abrupt =>
              refine ⟨rfl, ?_⟩
              show Event.setSignal "server_ready" ∉
                (baselineRegs ++ [Event.serverStart, Event.sendInitReq,
                  Event.notifyInitDone, Event.setSignal "completions_available",
                  Event.setSignal "server_ready", Event.yieldToCaller]).take 6
              decide

/-- C5: whenever `start_server` yields the session to the caller, the capability
assertions have succeeded, and the `initialized` notification plus the setting of the
`completions_available` and `server_ready` signals all precede the yield — the trace
up to the yield is exactly determined. -/
theorem claim_c5_ready_order (template : Json) (pid : Int)
    (path rootUriOf baseNameOf : String) (initResp : Json) (exit : ExitMode)
    (hy : Event.yieldToCaller ∈
      (start_server template pid path rootUriOf baseNameOf initResp exit).1) :
    claimedCapabilitySubset initResp = true ∧
    ∃ rest, (start_server template pid path rootUriOf baseNameOf initResp exit).1 =
      baselineRegs ++ [Event.serverStart, Event.sendInitReq, Event.notifyInitDone,
        Event.setSignal "completions_available", Event.setSignal "server_ready",
        Event.yieldToCaller] ++ rest := by
  unfold start_server at hy ⊢
  cases h1 : get_init_params template pid path rootUriOf baseNameOf with
  | error e =>
      rw [h1] at hy
      have hno : Event.yieldToCaller ∉ baselineRegs ++ [Event.serverStart] := by decide
      exact absurd hy hno
  | ok p =>
      rw [h1] at hy
      cases h2 : tsCapabilityCheck initResp with
      | error e =>
          rw [h2] at hy
          have hno : Event.yieldToCaller ∉
              baselineRegs ++ [Event.serverStart, Event.sendInitReq] := by decide
          exact absurd hy hno
      | ok u =>
          cases u
          refine ⟨(tsCapabilityCheck_ok_iff initResp).mp h2, ?_⟩
          cases exit with
          | normal => exact ⟨[Event.sendShutdownReq, Event.serverStop], rfl⟩
          | abrupt => exact ⟨[], rfl⟩

theorem claim_c5_witness :
    claimedCapabilitySubset respOk = true ∧
    ∃ rest, (start_server (.obj tmpl0) 41 "/repos/proj" "file:///repos/proj" "proj"
      respOk .normal).1 =
      baselineRegs ++ [Event.serverStart, Event.sendInitReq, Event.notifyInitDone,
        Event.setSignal "completions_available", Event.setSignal "server_ready",
        Event.yieldToCaller] ++ rest :=
  claim_c5_ready_order (.obj tmpl0) 41 "/repos/proj" "file:///repos/proj" "proj" respOk
    .normal (by decide)

/-- C3 is refuted by the code: the shutdown request and the process stop follow the
`yield` with no try/finally, so when the caller's scope exits abruptly (error or
cancellation) no shutdown request and no process stop appear in the trace — only a
normal exit produces the single shutdown/stop sequence. -/
theorem claim_c3_shutdown_skipped_on_abrupt_exit :
    Event.sendShutdownReq ∉ (start_server (.obj tmpl0) 41 "/repos/proj"
      "file:///repos/proj" "proj" respOk .abrupt).1 ∧
    Event.serverStop ∉ (start_server (.obj tmpl0) 41 "/repos/proj"
      "file:///repos/proj" "proj" respOk .abrupt).1 ∧
    (start_server (.obj tmpl0) 41 "/repos/proj" "file:///repos/proj" "proj" respOk
      .abrupt).2 = some .callerException ∧
    ((start_server (.obj tmpl0) 41 "/repos/proj" "file:///repos/proj" "proj" respOk
      .normal).1.count Event.sendShutdownReq = 1 ∧
     (start_server (.obj tmpl0) 41 "/repos/proj" "file:///repos/proj" "proj" respOk
      .normal).1.count Event.serverStop = 1) := by
  decide

/-- Whether one registration entry triggers the signal: its `method` value equals the
string `workspace/executeCommand`. -/
def regSetsSignal : Json → Bool
  | .obj r =>
      match lookupKey r "method" with
      | some (.str s) => s == "workspace/executeCommand"
      | _ => false
  | _ => false

/-- The loop of `register_capability_handler` (lines 213-218): walk the
registrations, and for each one whose `method` equals "workspace/executeCommand" set
the `initialize_searcher_command_available` signal (an asyncio `Event.set()`,
recorded here by appending the signal's name to the action list).  Indexing a
non-object registration is a `TypeError`; a missing `method` key a `KeyError`; a
non-string `method` value simply compares unequal. -/
def processRegistrations : List Json → List String → Except PyErr (List String)
  | [], acc => .ok acc
  | reg :: rest, acc =>
      match reg with
      | .obj r =>
          match lookupKey r "method" with
          | none => .error .keyError
          | some (.str s) =>
              if s = "workspace/executeCommand" then
                processRegistrations rest (acc ++ ["initialize_searcher_command_available"])
              else processRegistrations rest acc
          | some _ => processRegistrations rest acc
      | _ => .error .typeError

/-- Shallow embedding of `register_capability_handler` (lines 211-219):
`assert "registrations" in params`, then the loop above; the handler returns the
signal-set actions it performed, in order.  (A non-dict `params` or a non-list
`registrations` value leads to a `TypeError` once iterated/indexed.) -/
def register_capability_handler (params : Json) : Except PyErr (List String) :=
  match params with
  | .obj p =>
      match lookupKey p "registrations" with
      | none => .error .assertionError
      | some (.arr regs) => processRegistrations regs []
      | some _ => .error .typeError
  | _ => .error .typeError

theorem processRegistrations_eq (regs : List Json) (acc : List String)
    (hall : ∀ reg ∈ regs, ∃ r, reg = Json.obj r ∧ ∃ m, lookupKey r "method" = some m) :
    processRegistrations regs acc =
      .ok (acc ++ (regs.filter regSetsSignal).map
        fun _ => "initialize_searcher_command_available") := by
  induction regs generalizing acc with
  | nil => simp [processRegistrations]
  | cons reg rest ih =>
      have hrest : ∀ x ∈ rest, ∃ r, x = Json.obj r ∧ ∃ m, lookupKey r "method" = some m :=
        fun x hx => hall x (List.mem_cons_of_mem _ hx)
      obtain ⟨r, hreg, m, hm⟩ := hall reg (List.mem_cons_self _ _)
      subst hreg
      cases m with
      | str s =>
          by_cases hs : s = "workspace/executeCommand"
          · subst hs
            simp [processRegistrations, hm, regSetsSignal, ih _ hrest, List.filter_cons]
          · simp [processRegistrations, hm, hs, regSetsSignal, ih _ hrest,
              List.filter_cons]
      | num n => simp [processRegistrations, hm, regSetsSignal, ih _ hrest,
          List.filter_cons]
      | bool b => simp [processRegistrations, hm, regSetsSignal, ih _ hrest,
          List.filter_cons]
      | null => simp [processRegistrations, hm, regSetsSignal, ih _ hrest,
          List.filter_cons]
      | arr es => simp [processRegistrations, hm, regSetsSignal, ih _ hrest,
          List.filter_cons]
      | obj es => simp [processRegistrations, hm, regSetsSignal, ih _ hrest,
          List.filter_cons]

/-- C7: for every registerCapability request whose registrations are well-formed, the
handler sets the `initialize_searcher_command_available` signal if and only if some
registration entry has method `workspace/executeCommand`, and it sets no other
signal. -/
theorem claim_c7_register_capability_signal (params : Json)
    (p : List (String × Json)) (regs : List Json)
    (hp : params = .obj p)
    (hregs : lookupKey p "registrations" = some (.arr regs))
    (hall : ∀ reg ∈ regs, ∃ r, reg = Json.obj r ∧ ∃ m, lookupKey r "method" = some m) :
    ∃ acts, register_capability_handler params = .ok acts ∧
      (∀ a ∈ acts, a = "initialize_searcher_command_available") ∧
      (("initialize_searcher_command_available" ∈ acts) ↔
        ∃ reg ∈ regs, ∃ r, reg = Json.obj r ∧
          lookupKey r "method" = some (.str "workspace/executeCommand")) := by
  subst hp
  refine ⟨(regs.filter regSetsSignal).map
    fun _ => "initialize_searcher_command_available", ?_, ?_, ?_⟩
  · simp [register_capability_handler, hregs, processRegistrations_eq regs [] hall]
  · intro a ha
    obtain ⟨x, hx, hax⟩ := List.mem_map.mp ha
    exact hax.symm
  · rw [List.mem_map]
    constructor
    · rintro ⟨x, hx, -⟩
      rw [List.mem_filter] at hx
      obtain ⟨hmem, hsig⟩ := hx
      obtain ⟨r, hxr, m, hm⟩ := hall x hmem
      subst hxr
      refine ⟨.obj r, hmem, r, rfl, ?_⟩
      cases m with
      | str s =>
          have hsm : s = "workspace/executeCommand" := by
            simpa [regSetsSignal, hm] using hsig
          rw [hm, hsm]
      | num n => exact absurd hsig (by simp [regSetsSignal, hm])
      | bool b => exact absurd hsig (by simp [regSetsSignal, hm])
      | null => exact absurd hsig (by simp [regSetsSignal, hm])
      | arr es => exact absurd hsig (by simp [regSetsSignal, hm])
      | obj es => exact absurd hsig (by simp [regSetsSignal, hm])
    · rintro ⟨x, hx, r, hxr, hm⟩
      refine ⟨x, ?_, rfl⟩
      rw [List.mem_filter]
      refine ⟨hx, ?_⟩
      subst hxr
      simp [regSetsSignal, hm]

/-- A concrete registerCapability request carrying a workspace/executeCommand
registration. -/
def regParamsEntry : List (String × Json) :=
  [("id", .str "79eee87c-c409-4664-8102-e03263673f6f"),
   ("method", .str "workspace/executeCommand"),
   ("registerOptions", .obj [])]

theorem claim_c7_witness :
    ∃ acts, register_capability_handler
        (.obj [("registrations", .arr [.obj regParamsEntry])]) = .ok acts ∧
      (∀ a ∈ acts, a = "initialize_searcher_command_available") ∧
      (("initialize_searcher_command_available" ∈ acts) ↔
        ∃ reg ∈ ([.obj regParamsEntry] : List Json), ∃ r, reg = Json.obj r ∧
          lookupKey r "method" = some (.str "workspace/executeCommand")) := by
  refine claim_c7_register_capability_signal _ _ _ rfl rfl ?_
  intro reg hreg
  rw [List.mem_singleton] at hreg
  subst hreg
  exact ⟨regParamsEntry, rfl, .str "workspace/executeCommand", rfl⟩

/-- The executable location computed on lines 99-100 and 160:
`/tmp/static/ts-lsp/node_modules/.bin/typescript-language-server`. -/
def tsserverExecutablePath : String :=
  "/tmp/static/ts-lsp/node_modules/.bin/typescript-language-server"

/-- The environment facts `setup_runtime_dependencies` consults, in the order the
code consults them. -/
structure RuntimeEnv where
  platformSupported : Bool
  runtimeJsonLoads : Bool
  pathHasSitePackages : Bool
  nodeOnPath : Bool
  npmOnPath : Bool
  tsLspDirExists : Bool
  installSucceeds : Bool
  executableExists : Bool

/-- The Python exceptions `setup_runtime_dependencies` can raise, in check order. -/
inductive SetupErr where
  | platformAssertion
  | jsonLoad
  | sitePackagesValue
  | nodeAssertion
  | npmAssertion
  | installFailure
  | executableNotFound
  deriving DecidableEq

/-- Shallow embedding of `TypeScriptLanguageServer.setup_runtime_dependencies`
(lines 48-170) over the environment facts it consults, in source order: the platform
check (AssertionError, line 69), loading runtime_dependencies.json (lines 76-87), the
path check raising ValueError when the module path lacks the substring
`site-packages/` (lines 89-104), the node then npm checks (AssertionError,
lines 106-119), dependency installation — run only when the target directory does not
already exist (lines 121-156, CalledProcessError on failure) — and the final
executable check (FileNotFoundError, lines 158-170).  On success it returns the
launch command string `<executable> --stdio` (line 167). -/
def setup_runtime_dependencies (env : RuntimeEnv) : Except SetupErr String :=
  if !env.platformSupported then .error .platformAssertion
  else if !env.runtimeJsonLoads then .error .jsonLoad
  else if !env.pathHasSitePackages then .error .sitePackagesValue
  else if !env.nodeOnPath then .error .nodeAssertion
  else if !env.npmOnPath then .error .npmAssertion
  else if !env.tsLspDirExists && !env.installSucceeds then .error .installFailure
  else if !env.executableExists then .error .executableNotFound
  else .ok (tsserverExecutablePath ++ " --stdio")

/-- The data a constructed `TypeScriptLanguageServer` passes to the base class
(lines 38-45): the launch command, the working directory and the language id. -/
structure TSServerConfig where
  cmd : String
  cwd : String
  languageId : String

/-- Shallow embedding of `TypeScriptLanguageServer.__init__` (lines 34-46): it first
runs `setup_runtime_dependencies`; an exception there propagates, so no instance is
constructed and no server process can ever be spawned for this session. -/
def ts_language_server_init (env : RuntimeEnv) (repositoryRootPath : String) :
    Except SetupErr TSServerConfig :=
  match setup_runtime_dependencies env with
  | .error e => .error e
  | .ok cmd => .ok { cmd := cmd, cwd := repositoryRootPath, languageId := "typescript" }

/-- C6: if the typescript-language-server executable is missing from its expected
location, or node or npm is absent from PATH, constructing the
`TypeScriptLanguageServer` fails with an error and no plugin instance is returned, so
the session can never be started. -/
theorem claim_c6_missing_executable_fails (env : RuntimeEnv) (repo : String)
    (h : env.nodeOnPath = false ∨ env.npmOnPath = false ∨
      env.executableExists = false) :
    exceptOk (ts_language_server_init env repo) = false := by
  obtain ⟨p, j, sp, no, np, dir, inst, ex⟩ := env
  rcases h with h | h | h
  · subst h
    cases p <;> cases j <;> cases sp <;> rfl
  · subst h
    cases p <;> cases j <;> cases sp <;> cases no <;> rfl
  · subst h
    cases p <;> cases j <;> cases sp <;> cases no <;> cases np <;> cases dir <;>
      cases inst <;> rfl

theorem claim_c6_witness :
    exceptOk (ts_language_server_init
      ⟨true, true, true, true, true, true, true, false⟩ "/repos/proj") = false :=
  claim_c6_missing_executable_fails
    ⟨true, true, true, true, true, true, true, false⟩ "/repos/proj"
    (Or.inr (Or.inr rfl))

/-- C10: whenever the module's directory path does not contain `site-packages/`,
`setup_runtime_dependencies` raises ValueError — whatever the state of node, npm, the
installed directory or the executable — and therefore constructing the plugin fails
with that ValueError. -/
theorem claim_c10_site_packages_value_error (env : RuntimeEnv) (repo : String)
    (hplat : env.platformSupported = true)
    (hjson : env.runtimeJsonLoads = true)
    (hsp : env.pathHasSitePackages = false) :
    setup_runtime_dependencies env = .error .sitePackagesValue ∧
    ts_language_server_init env repo = .error .sitePackagesValue := by
  obtain ⟨p, j, sp, no, np, dir, inst, ex⟩ := env
  subst hplat
  subst hjson
  subst hsp
  exact ⟨rfl, rfl⟩

theorem claim_c10_witness :
    setup_runtime_dependencies ⟨true, true, false, true, true, true, true, true⟩ =
      .error .sitePackagesValue ∧
    ts_language_server_init ⟨true, true, false, true, true, true, true, true⟩
      "/repos/proj" = .error .sitePackagesValue :=
  claim_c10_site_packages_value_error
    ⟨true, true, false, true, true, true, true, true⟩ "/repos/proj" rfl rfl rfl

/-- A position range as an LSP server replies it (start/end line and character). -/
structure LspRange where
  startLine : Nat
  startChar : Nat
  endLine : Nat
  endChar : Nat
  deriving DecidableEq

/-- An LSP Location as a definition reply carries it: a document URI and a range. -/
structure LspLocation where
  uri : String
  range : LspRange
  deriving DecidableEq

/-- One item of the list `request_definition` returns to the caller. -/
structure DefinitionItem where
  uri : String
  absolutePath : String
  relativePath : String
  range : LspRange
  deriving DecidableEq

def rangeJson (r : LspRange) : Json :=
  .obj [("start", .obj [("line", .num (r.startLine : Int)),
          ("character", .num (r.startChar : Int))]),
        ("end", .obj [("line", .num (r.endLine : Int)),
          ("character", .num (r.endChar : Int))])]

/-- The JSON document of a server-side Location: exactly the fields uri and range. -/
def locationJson (l : LspLocation) : Json :=
  .obj [("uri", .str l.uri), ("range", rangeJson l.range)]

/-- The JSON document of a returned definition item, with the fields the in-repo test
reads on it. -/
def definitionItemJson (it : DefinitionItem) : Json :=
  .obj [("uri", .str it.uri), ("absolutePath", .str it.absolutePath),
        ("relativePath", .str it.relativePath), ("range", rangeJson it.range)]

/-- The filesystem path denoted by a file URI (drop the `file://` scheme). -/
def uriToAbsolutePath (uri : String) : String :=
  if uri.startsWith "file://" then uri.drop 7 else uri

/-- The path relative to the repository root, when the absolute path lies under it. -/
def relativePathOf (root absPath : String) : String :=
  if absPath.startsWith (root ++ "/") then absPath.drop (root.length + 1) else absPath

/-- Modelled from the spec: the semantic query surface (`request_definition`, defined
in `multilspy/language_server.py`) is not under src — only its caller, the test
`tests/multilspy/test_multilspy_ruby.py`, is.  The specification's end-to-end
scenario says the session issues the request and returns the server's location list;
the in-repo test (lines 36-43 and 50-52) reads the fields `uri`, `absolutePath`,
`relativePath` and `range` on each returned item and deletes `uri`/`absolutePath`
before comparing, so each returned item carries the server's uri and range together
with the derived absolute and repository-relative paths. -/
def request_definition (repositoryRootPath : String) (serverReply : List LspLocation) :
    List DefinitionItem :=
  serverReply.map fun l =>
    { uri := l.uri
      absolutePath := uriToAbsolutePath l.uri
      relativePath := relativePathOf repositoryRootPath (uriToAbsolutePath l.uri)
      range := l.range }

/-- The location list of the Ruby test's expected definition reply item. -/
def sampleReply : List LspLocation :=
  [⟨"file:///repos/rubyland/app/models/feed.rb", ⟨0, 0, 42, 3⟩⟩]

/-- C8 as stated is false at a concrete input: the list returned for a definition
request is not field-for-field the server's reply — each item is augmented with
absolutePath and relativePath fields. -/
theorem claim_c8_counterexample :
    (request_definition "/repos/rubyland" sampleReply).map definitionItemJson ≠
      sampleReply.map locationJson := by
  intro h
  simp only [request_definition, sampleReply, List.map_cons, List.map_nil,
    definitionItemJson, locationJson] at h
  injection h with hhead htail
  injection hhead with hkv
  injection hkv with e1 erest
  injection erest with e2 erest2
  injection e2 with ek ev
  exact absurd ek (by decide)

/-- C8 amended: the location list the server replies with is returned with the same
number of items in the same order, each preserving the server's uri and range
unchanged; the only difference is that every item additionally carries the derived
absolutePath and relativePath fields. -/
theorem claim_c8_locations_preserved (root : String) (serverReply : List LspLocation) :
    (request_definition root serverReply).length = serverReply.length ∧
    (request_definition root serverReply).map (fun it => (it.uri, it.range)) =
      serverReply.map (fun l => (l.uri, l.range)) ∧
    (request_definition root serverReply).map (fun it => it.absolutePath) =
      serverReply.map (fun l => uriToAbsolutePath l.uri) ∧
    (request_definition root serverReply).map (fun it => it.relativePath) =
      serverReply.map (fun l => relativePathOf root (uriToAbsolutePath l.uri)) := by
  refine ⟨?_, ?_, ?_, ?_⟩ <;> simp [request_definition]

end Multilspy
